import Mathlib

/-!
Shallow embedding of the golinks service
(olympus/portainer-config/golinks/main.go): a slug-to-URL store backed by a
single SQLite table, HTTP handlers for redirect, listing, add and remove,
and a basic-auth gate for the admin endpoints.

The SQLite table is modelled as a list of rows in insertion order; the
primary-key uniqueness check, the affected-row count of DELETE and the
ORDER BY created_at DESC of the listing query are modelled explicitly.
Timestamps are natural numbers supplied by the caller (the store assigns
CURRENT_TIMESTAMP at insertion). Fallible request-body decoding is an
Option; database errors are the strings the handlers match on.
-/

namespace GoLinks

/-- Decidable equality for Except, so that handler outcomes can be
checked on concrete inputs. -/
instance {ε α : Type} [DecidableEq ε] [DecidableEq α] :
    DecidableEq (Except ε α) := fun x y =>
  match x, y with
  | Except.ok a, Except.ok b =>
    if h : a = b then isTrue (by rw [h])
    else isFalse (fun hc => by injection hc with h2; exact h h2)
  | Except.ok _, Except.error _ => isFalse (fun hc => Except.noConfusion hc)
  | Except.error _, Except.ok _ => isFalse (fun hc => Except.noConfusion hc)
  | Except.error e, Except.error f =>
    if h : e = f then isTrue (by rw [h])
    else isFalse (fun hc => by injection hc with h2; exact h h2)

/-- A row of the links table (struct Link in main.go). -/
structure Link where
  slug : String
  url : String
  createdAt : Nat
deriving DecidableEq

/-- Body of POST /admin/add (struct AddLinkRequest). -/
structure AddLinkRequest where
  slug : String
  url : String
deriving DecidableEq

/-- Body of POST /admin/remove (struct RemoveLinkRequest). -/
structure RemoveLinkRequest where
  slug : String
deriving DecidableEq

/-- The links table: rows in insertion order. -/
abbrev Store := List Link

/-- Characters Go unicode.IsSpace recognises in the Latin-1 range:
space, tab, newline, vertical tab, form feed, carriage return, NEL and
no-break space.  White_Space runes above U+00FF are not modelled; no
claim depends on them. -/
def isGoSpace (c : Char) : Bool :=
  c = ' ' || c = '\t' || c = '\n' || c = Char.ofNat 11 || c = Char.ofNat 12 ||
  c = '\r' || c = Char.ofNat 133 || c = Char.ofNat 160

/-- Model of strings.TrimSpace: drop leading and trailing space characters. -/
def trimSpace (s : String) : String :=
  String.mk (((s.toList.dropWhile isGoSpace).reverse.dropWhile isGoSpace).reverse)

/-- Model of strings.HasPrefix on character lists. -/
def startsWithChars : List Char → List Char → Bool
  | _, [] => true
  | [], _ :: _ => false
  | c :: cs, p :: ps => c = p && startsWithChars cs ps

/-- Model of strings.HasPrefix. -/
def goStartsWith (s pat : String) : Bool :=
  startsWithChars s.toList pat.toList

/-- Model of strings.Contains on character lists. -/
def containsSub : List Char → List Char → Bool
  | [], pat => pat.isEmpty
  | s@(_ :: rest), pat => startsWithChars s pat || containsSub rest pat

/-- Model of strings.Contains. -/
def containsSubstr (s pat : String) : Bool :=
  containsSub s.toList pat.toList

/-- The two fields of net/url.URL that isValidURL inspects. -/
structure GoURL where
  scheme : String
  host : String
deriving DecidableEq

/-- The part of a character list after the last at-sign (userinfo removal
in the authority component of a URL). -/
def afterLastAt (cs : List Char) : String :=
  String.mk ((cs.reverse.takeWhile (fun c => c ≠ '@')).reverse)

/-- The authority component: everything up to the first slash, question
mark or hash, with userinfo stripped. -/
def hostOf (cs : List Char) : String :=
  afterLastAt (cs.takeWhile (fun c => c ≠ '/' && c ≠ '?' && c ≠ '#'))

/-- Model of net/url.Parse restricted to the strings isValidURL feeds it
(it is only reached once the http:// or https:// check passed): Parse
rejects a URL containing an ASCII control byte; otherwise the scheme is
the part before the colon and the host is the authority component after
the double slash.  Finer host validation (percent escapes, port syntax)
is not modelled; no claim depends on it. -/
def parseHTTP (s : String) : Option GoURL :=
  if s.toList.any (fun c => c.toNat < 32 || c.toNat == 127) then none
  else if goStartsWith s "https://" then
    some { scheme := "https", host := hostOf (s.toList.drop 8) }
  else if goStartsWith s "http://" then
    some { scheme := "http", host := hostOf (s.toList.drop 7) }
  else none

/-- isValidURL from main.go: the URL must start with http:// or https://,
parse, and have a non-empty scheme and host. -/
def isValidURL (urlStr : String) : Bool :=
  if !(goStartsWith urlStr "http://" || goStartsWith urlStr "https://") then
    false
  else
    match parseHTTP urlStr with
    | none => false
    | some u => u.scheme != "" && u.host != ""

/-- SELECT ... WHERE slug = ?: the first row with the given slug (the
primary key guarantees at most one in any state the store itself built). -/
def lookupSlug (store : Store) (slug : String) : Option Link :=
  store.find? (fun l => l.slug == slug)

/-- Outcome of the single-row query in getLink: a row, no rows
(sql.ErrNoRows), or a database failure. -/
inductive QueryResult where
  | found (l : Link)
  | noRows
  | failure (msg : String)
deriving DecidableEq

/-- The query getLink performs against an intact store. -/
def queryRow (store : Store) (slug : String) : QueryResult :=
  match lookupSlug store slug with
  | some l => QueryResult.found l
  | none => QueryResult.noRows

/-- getLink from main.go: sql.ErrNoRows becomes the error "link not
found"; any other database error is passed through. -/
def getLink (q : QueryResult) : Except String Link :=
  match q with
  | QueryResult.found l => Except.ok l
  | QueryResult.noRows => Except.error "link not found"
  | QueryResult.failure msg => Except.error msg

/-- getLink applied to an intact store: the Link Resolver of the spec. -/
def resolve (store : Store) (slug : String) : Except String Link :=
  getLink (queryRow store slug)

/-- addLink from main.go: INSERT INTO links; the primary key on slug
makes the insert fail with a UNIQUE-constraint error when the slug is
already present; created_at defaults to the current time. -/
def addLink (store : Store) (slug url : String) (now : Nat) :
    Except String Store :=
  if store.any (fun l => l.slug == slug) then
    Except.error "UNIQUE constraint failed: links.slug"
  else
    Except.ok (store ++ [{ slug := slug, url := url, createdAt := now }])

/-- removeLink from main.go: DELETE FROM links WHERE slug = ?; zero
affected rows becomes the error "not found". -/
def removeLink (store : Store) (slug : String) : Except String Store :=
  if (store.filter (fun l => l.slug == slug)).length = 0 then
    Except.error "not found"
  else
    Except.ok (store.filter (fun l => !(l.slug == slug)))

/-- Ordered insertion used to model ORDER BY created_at DESC. -/
def insertByTime (l : Link) : List Link → List Link
  | [] => [l]
  | x :: xs =>
    if x.createdAt ≤ l.createdAt then l :: x :: xs
    else x :: insertByTime l xs

/-- Sort newest creation time first. -/
def sortByCreatedDesc : List Link → List Link
  | [] => []
  | x :: xs => insertByTime x (sortByCreatedDesc xs)

/-- getAllLinks from main.go: SELECT ... ORDER BY created_at DESC. -/
def getAllLinks (store : Store) : List Link :=
  sortByCreatedDesc store

/-- The observable HTTP responses of the handlers. -/
inductive HResp where
  | listing (links : List Link)
  | redirect (url : String)
  | notFound
  | methodNotAllowed
  | badRequest (msg : String)
  | unauthorized
  | conflict
  | internalError
  | created (slug url : String)
  | removed (slug : String)
deriving DecidableEq

/-- The HTTP status code of each response. -/
def HResp.status : HResp → Nat
  | HResp.listing _ => 200
  | HResp.redirect _ => 302
  | HResp.notFound => 404
  | HResp.methodNotAllowed => 405
  | HResp.badRequest _ => 400
  | HResp.unauthorized => 401
  | HResp.conflict => 409
  | HResp.internalError => 500
  | HResp.created _ _ => 201
  | HResp.removed _ => 200

/-- handleAdminAdd from main.go.  The decoded body is an Option (none is
a JSON decoding failure); the handler returns the response and the store
after the request. -/
def handleAdminAdd (method : String) (body : Option AddLinkRequest)
    (store : Store) (now : Nat) : HResp × Store :=
  if method ≠ "POST" then (HResp.methodNotAllowed, store)
  else
    match body with
    | none => (HResp.badRequest "Invalid JSON", store)
    | some req =>
      let slug := trimSpace req.slug
      if slug = "" ∨ slug = "admin" then (HResp.badRequest "Invalid slug", store)
      else
        let url := trimSpace req.url
        if !(isValidURL url) then
          (HResp.badRequest "Invalid URL - must start with http:// or https://", store)
        else
          match addLink store slug url now with
          | Except.error e =>
            if containsSubstr e "UNIQUE constraint" then (HResp.conflict, store)
            else (HResp.internalError, store)
          | Except.ok store2 => (HResp.created slug url, store2)

/-- handleAdminRemove from main.go. -/
def handleAdminRemove (method : String) (body : Option RemoveLinkRequest)
    (store : Store) : HResp × Store :=
  if method ≠ "POST" then (HResp.methodNotAllowed, store)
  else
    match body with
    | none => (HResp.badRequest "Invalid JSON", store)
    | some req =>
      let slug := trimSpace req.slug
      if slug = "" ∨ slug = "admin" then (HResp.badRequest "Invalid slug", store)
      else
        match removeLink store slug with
        | Except.error e =>
          if containsSubstr e "not found" then (HResp.notFound, store)
          else (HResp.internalError, store)
        | Except.ok store2 => (HResp.removed slug, store2)

/-- The username and password of a Basic-Auth header. -/
structure Creds where
  user : String
  pass : String
deriving DecidableEq

/-- basicAuth from main.go: when either configured credential is empty
the wrapped handler runs unconditionally; otherwise absent (none) or
mismatching credentials get 401 and the handler never runs. -/
def basicAuth (adminUser adminPass : String)
    (next : Store → HResp × Store) (creds : Option Creds)
    (store : Store) : HResp × Store :=
  if adminUser = "" ∨ adminPass = "" then next store
  else
    match creds with
    | none => (HResp.unauthorized, store)
    | some c =>
      if c.user = adminUser ∧ c.pass = adminPass then next store
      else (HResp.unauthorized, store)

/-- The /admin/add endpoint as wired in main: basicAuth(handleAdminAdd). -/
def adminAddEndpoint (adminUser adminPass : String) (creds : Option Creds)
    (method : String) (body : Option AddLinkRequest) (store : Store)
    (now : Nat) : HResp × Store :=
  basicAuth adminUser adminPass
    (fun st => handleAdminAdd method body st now) creds store

/-- The /admin/remove endpoint as wired in main: basicAuth(handleAdminRemove). -/
def adminRemoveEndpoint (adminUser adminPass : String) (creds : Option Creds)
    (method : String) (body : Option RemoveLinkRequest) (store : Store) :
    HResp × Store :=
  basicAuth adminUser adminPass
    (fun st => handleAdminRemove method body st) creds store

/-- handleListLinks from main.go, as a function of the getAllLinks
result: a database error is a 500, otherwise the listing is rendered. -/
def handleListLinks (links : Except String (List Link)) : HResp :=
  match links with
  | Except.error _ => HResp.internalError
  | Except.ok ls => HResp.listing ls

/-- handleRoot from main.go, as a function of the request path and of
the outcomes of the two queries it may run.  The lookup argument is the
getLink call (kept abstract so that a failing store is expressible);
links is the getAllLinks call used by the listing page. -/
def handleRoot (urlPath : String)
    (lookup : String → Except String Link)
    (links : Except String (List Link)) : HResp :=
  let path :=
    if goStartsWith urlPath "/" then String.mk (urlPath.toList.drop 1) else urlPath
  if path = "" then handleListLinks links
  else
    match lookup path with
    | Except.error _ => HResp.notFound
    | Except.ok link => HResp.redirect link.url

/-- Stores reachable from the empty table through the two admin handlers
(the only writers; the access gate either rejects a request leaving the
store unchanged or runs one of these handlers). -/
inductive Reachable : Store → Prop where
  | init : Reachable []
  | addStep (store : Store) (method : String) (body : Option AddLinkRequest)
      (now : Nat) : Reachable store →
      Reachable (handleAdminAdd method body store now).2
  | removeStep (store : Store) (method : String)
      (body : Option RemoveLinkRequest) : Reachable store →
      Reachable (handleAdminRemove method body store).2

/-! ### Helper lemmas about the store -/

theorem lookupSlug_eq_none_iff {store : Store} {x : String} :
    lookupSlug store x = none ↔ ∀ l ∈ store, l.slug ≠ x := by
  simp [lookupSlug, List.find?_eq_none]

theorem any_slug_eq_false {store : Store} {x : String}
    (h : lookupSlug store x = none) :
    store.any (fun l => l.slug == x) = false := by
  rw [List.any_eq_false]
  intro l hl
  simp only [beq_iff_eq]
  exact lookupSlug_eq_none_iff.mp h l hl

/-- A successful add: method POST, valid slug and url, slug free in the
store; the handler answers 201 and appends the trimmed row. -/
theorem add_success (store : Store) (s u : String) (now : Nat)
    (hs1 : trimSpace s ≠ "") (hs2 : trimSpace s ≠ "admin")
    (hu : isValidURL (trimSpace u) = true)
    (hfree : lookupSlug store (trimSpace s) = none) :
    handleAdminAdd "POST" (some { slug := s, url := u }) store now =
      (HResp.created (trimSpace s) (trimSpace u),
        store ++ [{ slug := trimSpace s, url := trimSpace u, createdAt := now }]) := by
  have hany := any_slug_eq_false hfree
  simp [handleAdminAdd, addLink, hs1, hs2, hu, hany]

theorem lookupSlug_append_self {store : Store} {x : String} (l : Link)
    (h : lookupSlug store x = none) (hl : l.slug = x) :
    lookupSlug (store ++ [l]) x = some l := by
  unfold lookupSlug at h ⊢
  rw [List.find?_append, h, Option.none_or]
  simp [List.find?, hl]

theorem resolve_append_self {store : Store} {x : String} (l : Link)
    (h : lookupSlug store x = none) (hl : l.slug = x) :
    resolve (store ++ [l]) x = Except.ok l := by
  unfold resolve queryRow
  rw [lookupSlug_append_self l h hl]
  rfl

/-- C1: as frozen, the claim resolves the slug exactly as given even
though add stores it trimmed, and it fails on a slug with surrounding
whitespace: with the empty store, slug " a " and url "http://x.com" pass
the validation of add and the store has no entry for " a ", the add
succeeds (storing slug "a"), yet resolve " a " is NotFound rather than a
Link carrying the added url. -/
theorem C1_add_resolve_counterexample :
    (trimSpace " a " ≠ "" ∧ trimSpace " a " ≠ "admin" ∧
      isValidURL (trimSpace "http://x.com") = true ∧
      lookupSlug [] " a " = none) ∧
    (handleAdminAdd "POST" (some { slug := " a ", url := "http://x.com" }) [] 0).1 =
      HResp.created "a" "http://x.com" ∧
    resolve (handleAdminAdd "POST"
        (some { slug := " a ", url := "http://x.com" }) [] 0).2 " a " =
      Except.error "link not found" := by
  decide

/-- C1 (amended): for every slug and url that pass the validation of add,
adding on a store with no entry for the trimmed slug succeeds with 201,
and resolving the trimmed slug returns a Link whose url is the trimmed
url that was added. -/
theorem C1_add_resolve_trimmed (store : Store) (s u : String) (now : Nat)
    (hs1 : trimSpace s ≠ "") (hs2 : trimSpace s ≠ "admin")
    (hu : isValidURL (trimSpace u) = true)
    (hfree : lookupSlug store (trimSpace s) = none) :
    (handleAdminAdd "POST" (some { slug := s, url := u }) store now).1 =
      HResp.created (trimSpace s) (trimSpace u) ∧
    resolve (handleAdminAdd "POST" (some { slug := s, url := u }) store now).2
        (trimSpace s) =
      Except.ok { slug := trimSpace s, url := trimSpace u, createdAt := now } := by
  rw [add_success store s u now hs1 hs2 hu hfree]
  exact ⟨rfl, resolve_append_self _ hfree rfl⟩

/-- C1 witness: the amended theorem at slug wiki, a concrete https url,
the empty store and time 3. -/
theorem C1_add_resolve_trimmed_witness :
    (handleAdminAdd "POST"
        (some { slug := "wiki", url := "https://wiki.example.com" }) [] 3).1 =
      HResp.created (trimSpace "wiki") (trimSpace "https://wiki.example.com") ∧
    resolve (handleAdminAdd "POST"
        (some { slug := "wiki", url := "https://wiki.example.com" }) [] 3).2
        (trimSpace "wiki") =
      Except.ok { slug := trimSpace "wiki",
                  url := trimSpace "https://wiki.example.com", createdAt := 3 } :=
  C1_add_resolve_trimmed [] "wiki" "https://wiki.example.com" 3
    (by decide) (by decide) (by decide) (by decide)

/-! ### Validation failures of add -/

theorem containsSubstr_unique :
    containsSubstr "UNIQUE constraint failed: links.slug" "UNIQUE constraint" = true := by
  decide

theorem containsSubstr_notfound :
    containsSubstr "not found" "not found" = true := by
  decide

theorem add_bad_slug (store : Store) (req : AddLinkRequest) (now : Nat)
    (h : trimSpace req.slug = "" ∨ trimSpace req.slug = "admin") :
    handleAdminAdd "POST" (some req) store now = (HResp.badRequest "Invalid slug", store) := by
  simp [handleAdminAdd, h]

theorem add_bad_url (store : Store) (req : AddLinkRequest) (now : Nat)
    (h1 : trimSpace req.slug ≠ "") (h2 : trimSpace req.slug ≠ "admin")
    (h3 : isValidURL (trimSpace req.url) = false) :
    handleAdminAdd "POST" (some req) store now =
      (HResp.badRequest "Invalid URL - must start with http:// or https://", store) := by
  simp [handleAdminAdd, h1, h2, h3]

/-- C2: whenever the trimmed slug is empty or the literal admin, or the
trimmed url fails isValidURL, the add handler answers 400 and the store
is unchanged; in particular for slug "", slug "admin", url "ftp://x.com"
and url "not a url". -/
theorem C2_add_validation_rejects (store : Store) (req : AddLinkRequest) (now : Nat)
    (h : trimSpace req.slug = "" ∨ trimSpace req.slug = "admin" ∨
      isValidURL (trimSpace req.url) = false) :
    (((handleAdminAdd "POST" (some req) store now).1).status = 400 ∧
      (handleAdminAdd "POST" (some req) store now).2 = store) ∧
    handleAdminAdd "POST" (some { slug := "", url := "http://x.com" }) store now =
      (HResp.badRequest "Invalid slug", store) ∧
    handleAdminAdd "POST" (some { slug := "admin", url := "http://x.com" }) store now =
      (HResp.badRequest "Invalid slug", store) ∧
    handleAdminAdd "POST" (some { slug := "x", url := "ftp://x.com" }) store now =
      (HResp.badRequest "Invalid URL - must start with http:// or https://", store) ∧
    handleAdminAdd "POST" (some { slug := "x", url := "not a url" }) store now =
      (HResp.badRequest "Invalid URL - must start with http:// or https://", store) := by
  refine ⟨?_,
    add_bad_slug store { slug := "", url := "http://x.com" } now (Or.inl (by decide)),
    add_bad_slug store { slug := "admin", url := "http://x.com" } now (Or.inr (by decide)),
    add_bad_url store { slug := "x", url := "ftp://x.com" } now
      (by decide) (by decide) (by decide),
    add_bad_url store { slug := "x", url := "not a url" } now
      (by decide) (by decide) (by decide)⟩
  by_cases hs : trimSpace req.slug = "" ∨ trimSpace req.slug = "admin"
  · rw [add_bad_slug store req now hs]
    exact ⟨rfl, rfl⟩
  · rcases not_or.mp hs with ⟨hs1, hs2⟩
    have hu : isValidURL (trimSpace req.url) = false := by
      rcases h with h1 | h2 | h3
      · exact absurd h1 hs1
      · exact absurd h2 hs2
      · exact h3
    rw [add_bad_url store req now hs1 hs2 hu]
    exact ⟨rfl, rfl⟩

/-- C2 witness: the theorem at slug admin on the empty store. -/
theorem C2_add_validation_rejects_witness :
    (((handleAdminAdd "POST" (some { slug := "admin", url := "http://x.com" }) [] 0).1).status = 400 ∧
      (handleAdminAdd "POST" (some { slug := "admin", url := "http://x.com" }) [] 0).2 = []) ∧
    handleAdminAdd "POST" (some { slug := "", url := "http://x.com" }) [] 0 =
      (HResp.badRequest "Invalid slug", []) ∧
    handleAdminAdd "POST" (some { slug := "admin", url := "http://x.com" }) [] 0 =
      (HResp.badRequest "Invalid slug", []) ∧
    handleAdminAdd "POST" (some { slug := "x", url := "ftp://x.com" }) [] 0 =
      (HResp.badRequest "Invalid URL - must start with http:// or https://", []) ∧
    handleAdminAdd "POST" (some { slug := "x", url := "not a url" }) [] 0 =
      (HResp.badRequest "Invalid URL - must start with http:// or https://", []) :=
  C2_add_validation_rejects [] { slug := "admin", url := "http://x.com" } 0
    (Or.inr (Or.inl (by decide)))

/-- C3: after a successful add of a slug, a second add of the same slug
with any valid url answers 409 Conflict, the store is unchanged, and the
stored row for the slug still carries the first url. -/
theorem C3_duplicate_add_conflict (store : Store) (s u1 u2 : String) (n1 n2 : Nat)
    (hs1 : trimSpace s ≠ "") (hs2 : trimSpace s ≠ "admin")
    (hu1 : isValidURL (trimSpace u1) = true)
    (hu2 : isValidURL (trimSpace u2) = true)
    (hfree : lookupSlug store (trimSpace s) = none) :
    (handleAdminAdd "POST" (some { slug := s, url := u1 }) store n1).1 =
      HResp.created (trimSpace s) (trimSpace u1) ∧
    handleAdminAdd "POST" (some { slug := s, url := u2 })
        (handleAdminAdd "POST" (some { slug := s, url := u1 }) store n1).2 n2 =
      (HResp.conflict,
        (handleAdminAdd "POST" (some { slug := s, url := u1 }) store n1).2) ∧
    lookupSlug (handleAdminAdd "POST" (some { slug := s, url := u1 }) store n1).2
        (trimSpace s) =
      some { slug := trimSpace s, url := trimSpace u1, createdAt := n1 } := by
  rw [add_success store s u1 n1 hs1 hs2 hu1 hfree]
  have hany : (store ++
      [({ slug := trimSpace s, url := trimSpace u1, createdAt := n1 } : Link)]).any
        (fun l => l.slug == trimSpace s) = true := by
    rw [List.any_eq_true]
    exact ⟨_, List.mem_append_right _ (List.mem_singleton.mpr rfl), by simp⟩
  refine ⟨rfl, ?_, lookupSlug_append_self _ hfree rfl⟩
  simp [handleAdminAdd, addLink, hs1, hs2, hu2, hany, containsSubstr_unique]

/-- C3 witness: the theorem with slug wiki and two distinct urls on the
empty store. -/
theorem C3_duplicate_add_conflict_witness :
    (handleAdminAdd "POST" (some { slug := "wiki", url := "https://a.com" }) [] 1).1 =
      HResp.created (trimSpace "wiki") (trimSpace "https://a.com") ∧
    handleAdminAdd "POST" (some { slug := "wiki", url := "https://b.com" })
        (handleAdminAdd "POST" (some { slug := "wiki", url := "https://a.com" }) [] 1).2 2 =
      (HResp.conflict,
        (handleAdminAdd "POST" (some { slug := "wiki", url := "https://a.com" }) [] 1).2) ∧
    lookupSlug (handleAdminAdd "POST" (some { slug := "wiki", url := "https://a.com" }) [] 1).2
        (trimSpace "wiki") =
      some { slug := trimSpace "wiki", url := trimSpace "https://a.com", createdAt := 1 } :=
  C3_duplicate_add_conflict [] "wiki" "https://a.com" "https://b.com" 1 2
    (by decide) (by decide) (by decide) (by decide) (by decide)

/-! ### The access gate -/

/-- C4: with both admin credentials configured, a request with absent or
mismatching Basic-Auth credentials gets 401 Unauthorized and the store is
unchanged, whatever the wrapped handler is (so it is never invoked). -/
theorem C4_guarded_unauthorized (adminUser adminPass : String)
    (next : Store → HResp × Store) (creds : Option Creds) (store : Store)
    (hU : adminUser ≠ "") (hP : adminPass ≠ "")
    (hc : ∀ c : Creds, creds = some c → ¬(c.user = adminUser ∧ c.pass = adminPass)) :
    basicAuth adminUser adminPass next creds store = (HResp.unauthorized, store) ∧
    (basicAuth adminUser adminPass next creds store).1.status = 401 := by
  have hmain : basicAuth adminUser adminPass next creds store =
      (HResp.unauthorized, store) := by
    unfold basicAuth
    rw [if_neg (by simp [hU, hP])]
    cases creds with
    | none => rfl
    | some c => exact if_neg (hc c rfl)
  exact ⟨hmain, by rw [hmain]; rfl⟩

/-- C4 witness: configured pair u and p, wrong password presented, empty
store, a concrete add as the wrapped handler. -/
theorem C4_guarded_unauthorized_witness :
    basicAuth "u" "p"
        (fun st => handleAdminAdd "POST"
          (some { slug := "wiki", url := "https://a.com" }) st 0)
        (some { user := "u", pass := "wrong" }) [] = (HResp.unauthorized, []) ∧
    (basicAuth "u" "p"
        (fun st => handleAdminAdd "POST"
          (some { slug := "wiki", url := "https://a.com" }) st 0)
        (some { user := "u", pass := "wrong" }) []).1.status = 401 :=
  C4_guarded_unauthorized "u" "p"
    (fun st => handleAdminAdd "POST"
      (some { slug := "wiki", url := "https://a.com" }) st 0)
    (some { user := "u", pass := "wrong" }) []
    (by decide) (by decide)
    (fun c h => by cases h; decide)

/-- C5: with either admin credential unconfigured, the gate passes every
request through to the wrapped handler unchanged, credentials or not; in
particular a valid add with no credentials succeeds with 201. -/
theorem C5_open_gate_passthrough (adminUser adminPass : String)
    (next : Store → HResp × Store) (creds : Option Creds) (store : Store)
    (h : adminUser = "" ∨ adminPass = "") :
    basicAuth adminUser adminPass next creds store = next store ∧
    adminAddEndpoint "" "" none "POST"
        (some { slug := "wiki", url := "https://wiki.example.com" }) [] 7 =
      (HResp.created "wiki" "https://wiki.example.com",
        [{ slug := "wiki", url := "https://wiki.example.com", createdAt := 7 }]) := by
  constructor
  · unfold basicAuth
    rw [if_pos h]
  · decide

/-- C5 witness: username unconfigured, password set, no credentials
presented, a concrete remove as the wrapped handler. -/
theorem C5_open_gate_passthrough_witness :
    basicAuth "" "p" (fun st => handleAdminRemove "POST" (some { slug := "zzz" }) st)
        none [] =
      handleAdminRemove "POST" (some { slug := "zzz" }) [] ∧
    adminAddEndpoint "" "" none "POST"
        (some { slug := "wiki", url := "https://wiki.example.com" }) [] 7 =
      (HResp.created "wiki" "https://wiki.example.com",
        [{ slug := "wiki", url := "https://wiki.example.com", createdAt := 7 }]) :=
  C5_open_gate_passthrough "" "p"
    (fun st => handleAdminRemove "POST" (some { slug := "zzz" }) st) none []
    (Or.inl rfl)

/-! ### Remove -/

theorem filter_slug_eq_nil {store : Store} {x : String}
    (h : lookupSlug store x = none) :
    store.filter (fun l => l.slug == x) = [] := by
  rw [List.filter_eq_nil_iff]
  intro l hl
  simp only [beq_iff_eq]
  exact lookupSlug_eq_none_iff.mp h l hl

theorem filter_ne_slug_eq_self {store : Store} {x : String}
    (h : lookupSlug store x = none) :
    store.filter (fun l => !(l.slug == x)) = store := by
  rw [List.filter_eq_self]
  intro l hl
  simp only [Bool.not_eq_true', beq_eq_false_iff_ne]
  exact lookupSlug_eq_none_iff.mp h l hl

/-- Removing a slug that has no row answers 404 and leaves the store as
it was (zero affected rows map to NotFound). -/
theorem remove_absent_notFound (store : Store) (s : String)
    (hs1 : trimSpace s ≠ "") (hs2 : trimSpace s ≠ "admin")
    (hfree : lookupSlug store (trimSpace s) = none) :
    handleAdminRemove "POST" (some { slug := s }) store = (HResp.notFound, store) := by
  have hrem : removeLink store (trimSpace s) = Except.error "not found" := by
    unfold removeLink
    rw [filter_slug_eq_nil hfree]
    rfl
  simp [handleAdminRemove, hs1, hs2, hrem, containsSubstr_notfound]

/-- C6: adding a slug to a store that does not hold it and then removing
it succeeds and returns the store to its prior state, so resolving the
slug afterwards is NotFound; and removing a slug with no stored row is
NotFound with the store unchanged. -/
theorem C6_add_remove_resolve_notFound (store : Store) (s u : String) (now : Nat)
    (hs1 : trimSpace s ≠ "") (hs2 : trimSpace s ≠ "admin")
    (hu : isValidURL (trimSpace u) = true)
    (hfree : lookupSlug store (trimSpace s) = none)
    (hfree2 : lookupSlug store s = none) :
    handleAdminRemove "POST" (some { slug := s })
        (handleAdminAdd "POST" (some { slug := s, url := u }) store now).2 =
      (HResp.removed (trimSpace s), store) ∧
    resolve (handleAdminRemove "POST" (some { slug := s })
        (handleAdminAdd "POST" (some { slug := s, url := u }) store now).2).2 s =
      Except.error "link not found" ∧
    (∀ st : Store, lookupSlug st (trimSpace s) = none →
      handleAdminRemove "POST" (some { slug := s }) st = (HResp.notFound, st)) := by
  rw [add_success store s u now hs1 hs2 hu hfree]
  have hrem : removeLink
      (store ++ [({ slug := trimSpace s, url := trimSpace u, createdAt := now } : Link)])
      (trimSpace s) = Except.ok store := by
    unfold removeLink
    rw [List.filter_append, List.filter_append, filter_slug_eq_nil hfree,
      filter_ne_slug_eq_self hfree]
    simp
  have hmain : handleAdminRemove "POST" (some { slug := s })
      (store ++ [({ slug := trimSpace s, url := trimSpace u, createdAt := now } : Link)]) =
      (HResp.removed (trimSpace s), store) := by
    simp [handleAdminRemove, hs1, hs2, hrem]
  refine ⟨hmain, ?_, fun st hst => remove_absent_notFound st s hs1 hs2 hst⟩
  rw [hmain]
  unfold resolve queryRow
  rw [hfree2]
  rfl

/-- C6 witness: slug wiki on the empty store, then the no-row remove at
the same slug on the empty store. -/
theorem C6_add_remove_resolve_notFound_witness :
    handleAdminRemove "POST" (some { slug := "wiki" })
        (handleAdminAdd "POST"
          (some { slug := "wiki", url := "https://wiki.example.com" }) [] 4).2 =
      (HResp.removed (trimSpace "wiki"), []) ∧
    resolve (handleAdminRemove "POST" (some { slug := "wiki" })
        (handleAdminAdd "POST"
          (some { slug := "wiki", url := "https://wiki.example.com" }) [] 4).2).2 "wiki" =
      Except.error "link not found" ∧
    handleAdminRemove "POST" (some { slug := "wiki" }) [] = (HResp.notFound, []) := by
  have h := C6_add_remove_resolve_notFound [] "wiki" "https://wiki.example.com" 4
    (by decide) (by decide) (by decide) (by decide) (by decide)
  exact ⟨h.1, h.2.1, h.2.2 [] (by decide)⟩

/-! ### The listing order -/

theorem insertByTime_perm (l : Link) (xs : List Link) :
    List.Perm (insertByTime l xs) (l :: xs) := by
  induction xs with
  | nil => simp [insertByTime]
  | cons x xs ih =>
    by_cases h : x.createdAt ≤ l.createdAt
    · simp [insertByTime, h]
    · simp only [insertByTime, if_neg h]
      exact (ih.cons x).trans (List.Perm.swap l x xs)

theorem insertByTime_pairwise (l : Link) (xs : List Link)
    (h : xs.Pairwise (fun a b => b.createdAt ≤ a.createdAt)) :
    (insertByTime l xs).Pairwise (fun a b => b.createdAt ≤ a.createdAt) := by
  induction xs with
  | nil => simp [insertByTime]
  | cons x xs ih =>
    rcases List.pairwise_cons.mp h with ⟨hx, hxs⟩
    by_cases hcmp : x.createdAt ≤ l.createdAt
    · simp only [insertByTime, if_pos hcmp]
      refine List.pairwise_cons.mpr ⟨?_, h⟩
      intro y hy
      rcases List.mem_cons.mp hy with rfl | hy
      · exact hcmp
      · exact le_trans (hx y hy) hcmp
    · simp only [insertByTime, if_neg hcmp]
      refine List.pairwise_cons.mpr ⟨?_, ih hxs⟩
      intro y hy
      rcases List.mem_cons.mp ((insertByTime_perm l xs).mem_iff.mp hy) with rfl | hy2
      · exact Nat.le_of_not_le hcmp
      · exact hx y hy2

theorem sortByCreatedDesc_perm (xs : List Link) :
    List.Perm (sortByCreatedDesc xs) xs := by
  induction xs with
  | nil => simp [sortByCreatedDesc]
  | cons x xs ih => exact (insertByTime_perm x _).trans (ih.cons x)

theorem sortByCreatedDesc_pairwise (xs : List Link) :
    (sortByCreatedDesc xs).Pairwise (fun a b => b.createdAt ≤ a.createdAt) := by
  induction xs with
  | nil => simp [sortByCreatedDesc]
  | cons x xs ih => exact insertByTime_pairwise x _ ih

/-- C7: getAllLinks returns exactly the stored rows (a permutation of the
store) ordered newest creation time first, for every store state; on the
empty store it returns the empty sequence, which the listing handler
renders as a page, not an error. -/
theorem C7_getAllLinks_ordered (store : Store) :
    List.Perm (getAllLinks store) store ∧
    (getAllLinks store).Pairwise (fun a b => b.createdAt ≤ a.createdAt) ∧
    getAllLinks ([] : Store) = [] ∧
    handleListLinks (Except.ok (getAllLinks ([] : Store))) = HResp.listing [] :=
  ⟨sortByCreatedDesc_perm store, sortByCreatedDesc_pairwise store, rfl, rfl⟩

/-! ### The store invariant -/

theorem isValidURL_ne_empty {u : String} (h : isValidURL u = true) : u ≠ "" := by
  intro he
  rw [he] at h
  exact absurd h (by decide)

/-- Every run of the add handler either leaves the store untouched or
appends the one validated, trimmed row. -/
theorem handleAdminAdd_store_cases (method : String) (body : Option AddLinkRequest)
    (store : Store) (now : Nat) :
    (handleAdminAdd method body store now).2 = store ∨
    ∃ req, body = some req ∧ trimSpace req.slug ≠ "" ∧ trimSpace req.slug ≠ "admin" ∧
      isValidURL (trimSpace req.url) = true ∧
      (handleAdminAdd method body store now).2 =
        store ++ [{ slug := trimSpace req.slug, url := trimSpace req.url,
                    createdAt := now }] := by
  by_cases hm : method = "POST"
  · subst hm
    cases body with
    | none => left; simp [handleAdminAdd]
    | some req =>
      by_cases hs : trimSpace req.slug = "" ∨ trimSpace req.slug = "admin"
      · left; simp [handleAdminAdd, hs]
      · rcases not_or.mp hs with ⟨hs1, hs2⟩
        by_cases hu : isValidURL (trimSpace req.url) = true
        · by_cases hdup : store.any (fun l => l.slug == trimSpace req.slug) = true
          · left
            simp [handleAdminAdd, addLink, hs1, hs2, hu, hdup, containsSubstr_unique]
          · right
            refine ⟨req, rfl, hs1, hs2, hu, ?_⟩
            have hdup2 : store.any (fun l => l.slug == trimSpace req.slug) = false := by
              simpa using hdup
            simp [handleAdminAdd, addLink, hs1, hs2, hu, hdup2]
        · left
          have hu2 : isValidURL (trimSpace req.url) = false := by simpa using hu
          simp [handleAdminAdd, hs1, hs2, hu2]
  · left; simp [handleAdminAdd, hm]

/-- Every run of the remove handler either leaves the store untouched or
filters rows out of it. -/
theorem handleAdminRemove_store_cases (method : String)
    (body : Option RemoveLinkRequest) (store : Store) :
    (handleAdminRemove method body store).2 = store ∨
    ∃ req, body = some req ∧
      (handleAdminRemove method body store).2 =
        store.filter (fun l => !(l.slug == trimSpace req.slug)) := by
  by_cases hm : method = "POST"
  · subst hm
    cases body with
    | none => left; simp [handleAdminRemove]
    | some req =>
      by_cases hs : trimSpace req.slug = "" ∨ trimSpace req.slug = "admin"
      · left; simp [handleAdminRemove, hs]
      · rcases not_or.mp hs with ⟨hs1, hs2⟩
        by_cases hz : (store.filter (fun l => l.slug == trimSpace req.slug)).length = 0
        · left
          simp [handleAdminRemove, removeLink, hs1, hs2, hz, containsSubstr_notfound]
        · right
          refine ⟨req, rfl, ?_⟩
          simp [handleAdminRemove, removeLink, hs1, hs2, hz]
  · left; simp [handleAdminRemove, hm]

/-- C8: in every store reachable from the empty table through the two
admin handlers, no row has an empty slug, the reserved slug admin, or an
empty url. -/
theorem C8_reachable_invariant (store : Store) (h : Reachable store) :
    ∀ l ∈ store, l.slug ≠ "" ∧ l.slug ≠ "admin" ∧ l.url ≠ "" := by
  induction h with
  | init => intro l hl; cases hl
  | addStep st m b n hr ih =>
    rcases handleAdminAdd_store_cases m b st n with heq | ⟨req, hb, h1, h2, h3, heq⟩
    · rw [heq]; exact ih
    · rw [heq]
      intro l hl
      rcases List.mem_append.mp hl with hin | hin
      · exact ih l hin
      · rw [List.mem_singleton.mp hin]
        exact ⟨h1, h2, isValidURL_ne_empty h3⟩
  | removeStep st m b hr ih =>
    rcases handleAdminRemove_store_cases m b st with heq | ⟨req, hb, heq⟩
    · rw [heq]; exact ih
    · rw [heq]
      intro l hl
      exact ih l (List.mem_filter.mp hl).1

/-- C8 witness: the invariant read off the store reached by one
successful add. -/
theorem C8_reachable_invariant_witness :
    ({ slug := "wiki", url := "https://wiki.example.com", createdAt := 5 } : Link).slug ≠ "" ∧
    ({ slug := "wiki", url := "https://wiki.example.com", createdAt := 5 } : Link).slug ≠ "admin" ∧
    ({ slug := "wiki", url := "https://wiki.example.com", createdAt := 5 } : Link).url ≠ "" :=
  C8_reachable_invariant _
    (Reachable.addStep [] "POST"
      (some { slug := "wiki", url := "https://wiki.example.com" }) 5 Reachable.init)
    _ (by decide)

/-! ### Method handling on the admin paths -/

/-- C9: as frozen, the claim is false: the access gate runs before the
method check, so with credentials configured a GET to /admin/add with no
credentials is answered 401, not 405. -/
theorem C9_method_counterexample :
    adminAddEndpoint "u" "p" none "GET" none [] 0 = (HResp.unauthorized, []) ∧
    (adminAddEndpoint "u" "p" none "GET" none [] 0).1.status ≠ 405 := by
  decide

/-- C9 (amended): a non-POST request to an admin path that passes the
access gate (authentication disabled, or the configured credentials
presented) is answered 405 Method Not Allowed with the store unchanged. -/
theorem C9_method_not_allowed_gate (adminUser adminPass : String)
    (creds : Option Creds) (method : String) (abody : Option AddLinkRequest)
    (rbody : Option RemoveLinkRequest) (store : Store) (now : Nat)
    (hm : method ≠ "POST")
    (hgate : adminUser = "" ∨ adminPass = "" ∨
      creds = some { user := adminUser, pass := adminPass }) :
    adminAddEndpoint adminUser adminPass creds method abody store now =
      (HResp.methodNotAllowed, store) ∧
    adminRemoveEndpoint adminUser adminPass creds method rbody store =
      (HResp.methodNotAllowed, store) := by
  have hnext1 : handleAdminAdd method abody store now =
      (HResp.methodNotAllowed, store) := by
    simp [handleAdminAdd, hm]
  have hnext2 : handleAdminRemove method rbody store =
      (HResp.methodNotAllowed, store) := by
    simp [handleAdminRemove, hm]
  unfold adminAddEndpoint adminRemoveEndpoint basicAuth
  rcases hgate with h | h | h
  · simp [h, hnext1, hnext2]
  · simp [h, hnext1, hnext2]
  · subst h
    by_cases hcfg : adminUser = "" ∨ adminPass = ""
    · simp [if_pos hcfg, hnext1, hnext2]
    · simp [if_neg hcfg, hnext1, hnext2]

/-- C9 witness: the amended theorem with authentication disabled, a GET
and empty bodies on the empty store. -/
theorem C9_method_not_allowed_gate_witness :
    adminAddEndpoint "" "" none "GET" none [] 0 = (HResp.methodNotAllowed, []) ∧
    adminRemoveEndpoint "" "" none "GET" none [] = (HResp.methodNotAllowed, []) :=
  C9_method_not_allowed_gate "" "" none "GET" none none [] 0
    (by decide) (Or.inl rfl)

/-! ### Redirect lookups degrade to 404 -/

/-- C10: on a non-empty path, every lookup error — sql.ErrNoRows and any
internal store failure alike — makes handleRoot answer 404, and no slug
request is ever answered 500, whatever the lookup returns. -/
theorem C10_lookup_error_notFound (urlPath : String)
    (lookup : String → Except String Link)
    (links : Except String (List Link)) (e : String)
    (hpath : (if goStartsWith urlPath "/" then
      String.mk (urlPath.toList.drop 1) else urlPath) ≠ "")
    (herr : lookup (if goStartsWith urlPath "/" then
      String.mk (urlPath.toList.drop 1) else urlPath) = Except.error e) :
    handleRoot urlPath lookup links = HResp.notFound ∧
    (∀ lk : String → Except String Link,
      (handleRoot urlPath lk links).status ≠ 500) := by
  constructor
  · simp only [handleRoot]
    rw [if_neg hpath, herr]
  · intro lk
    simp only [handleRoot]
    rw [if_neg hpath]
    cases hq : lk (if goStartsWith urlPath "/" then
        String.mk (urlPath.toList.drop 1) else urlPath) with
    | error f => simp [HResp.status]
    | ok l => simp [HResp.status]

/-- C10 witness: a failing store on the path /missing yields 404, and a
successful lookup on the same path is a 302, not a 500. -/
theorem C10_lookup_error_notFound_witness :
    handleRoot "/missing" (fun _ => Except.error "disk I/O error")
        (Except.ok []) = HResp.notFound ∧
    (handleRoot "/missing"
        (fun _ => Except.ok { slug := "missing", url := "http://x.com", createdAt := 0 })
        (Except.ok [])).status ≠ 500 := by
  have h := C10_lookup_error_notFound "/missing"
    (fun _ => Except.error "disk I/O error") (Except.ok []) "disk I/O error"
    (by decide) rfl
  exact ⟨h.1, h.2 (fun _ => Except.ok { slug := "missing", url := "http://x.com", createdAt := 0 })⟩

end GoLinks
